import Mathlib

/-!
Verification of the chat-app session-normalization and resilience core.

Shallow embedding of the Python code in `src/mesop-chat/app.py` (normalizer,
session store) and `src/backend/error_handlers.py` / `src/backend/app_improved.py`
(retry and circuit-breaker decorators), with theorems settling the spec claims.

The dynamically-typed values of Python are modelled by the inductive type `PyVal`.
`datetime` values carry the string their `.isoformat()` would produce.
Nondeterminism (`uuid.uuid4()`, `datetime.now()`) is modelled by a `World`
holding a stream of fresh uuid strings and a frozen clock reading; functions
that draw fresh values thread an index into the uuid stream.
-/

set_option maxHeartbeats 1000000

/-- A dynamically-typed Python value, restricted to the shapes the
normalizer can encounter: `None`, `str`, `int`, `bool`, `datetime`
(carrying its isoformat rendering), `list`, `dict` (insertion-ordered
association list, arbitrary hashable keys), and instances of the three
dataclasses `Message` (id, role, content, timestamp, metadata,
is_streaming, in_progress), `ChatSession` (id, messages, created_at,
last_activity, title, context, claude_session_id) and `ProcessingStep`
(type, message, data, timestamp), whose fields are again dynamic, since
Python does not enforce the annotations. -/
inductive PyVal where
  | pynone : PyVal
  | pystr : String → PyVal
  | pyint : Int → PyVal
  | pybool : Bool → PyVal
  | pydatetime : String → PyVal
  | pylist : List PyVal → PyVal
  | pydict : List (PyVal × PyVal) → PyVal
  | pymsg : PyVal → PyVal → PyVal → PyVal → PyVal → PyVal → PyVal → PyVal
  | pysession : PyVal → PyVal → PyVal → PyVal → PyVal → PyVal → PyVal → PyVal
  | pystep : PyVal → PyVal → PyVal → PyVal → PyVal

namespace PyVal

/-- Equality of Python dict keys. Only hashable values can be dict keys in
Python (lists, dicts and the two dataclasses are unhashable), so key
equality is only ever consulted on the primitive shapes. -/
def keyEq : PyVal → PyVal → Bool
  | pynone, pynone => true
  | pystr a, pystr b => a == b
  | pyint a, pyint b => a == b
  | pybool a, pybool b => a == b
  | pydatetime a, pydatetime b => a == b
  | _, _ => false

/-- Field accessors for `pymsg id role content timestamp metadata is_streaming in_progress`. -/
def msgId : PyVal → PyVal
  | pymsg i _ _ _ _ _ _ => i
  | _ => pynone

def msgRole : PyVal → PyVal
  | pymsg _ r _ _ _ _ _ => r
  | _ => pynone

def msgContent : PyVal → PyVal
  | pymsg _ _ c _ _ _ _ => c
  | _ => pynone

def msgTimestamp : PyVal → PyVal
  | pymsg _ _ _ t _ _ _ => t
  | _ => pynone

/-- Field accessors for
`pysession id messages created_at last_activity title context claude_session_id`. -/
def sessId : PyVal → PyVal
  | pysession i _ _ _ _ _ _ => i
  | _ => pynone

def sessMessages : PyVal → PyVal
  | pysession _ m _ _ _ _ _ => m
  | _ => pynone

def sessCreatedAt : PyVal → PyVal
  | pysession _ _ c _ _ _ _ => c
  | _ => pynone

def sessLastActivity : PyVal → PyVal
  | pysession _ _ _ l _ _ _ => l
  | _ => pynone

def sessTitle : PyVal → PyVal
  | pysession _ _ _ _ t _ _ => t
  | _ => pynone

def isSession : PyVal → Bool
  | pysession _ _ _ _ _ _ _ => true
  | _ => false

def isStr : PyVal → Bool
  | pystr _ => true
  | _ => false

/-- Python truthiness (`bool(v)`). Dataclass instances are always truthy. -/
def truthy : PyVal → Bool
  | pynone => false
  | pystr s => s ≠ ""
  | pyint n => n ≠ 0
  | pybool b => b
  | pydatetime _ => true
  | pylist xs => ¬xs.isEmpty
  | pydict kvs => ¬kvs.isEmpty
  | pymsg _ _ _ _ _ _ _ => true
  | pysession _ _ _ _ _ _ _ => true
  | pystep _ _ _ _ => true

/-- Python `v == "lit"` for a string literal: only a `str` with the same
characters compares equal; values of other types compare unequal. -/
def eqStr (v : PyVal) (s : String) : Bool :=
  match v with
  | pystr t => t == s
  | _ => false

end PyVal

open PyVal

/-- Python exceptions that the modelled code can raise. -/
inductive PyErr where
  | typeError : PyErr
  | attributeError : PyErr
  deriving Repr, DecidableEq

/-- Source of the nondeterministic values the code draws: `uuid.uuid4()` is a
stream of fresh strings indexed by a draw counter, and `datetime.now()` is a
frozen clock reading (`now` is its isoformat string). -/
structure World where
  uuid : Nat → String
  now : String

/-- Python `d.get(k, default)` for a string-literal key `k`: the value under the
first key equal to `k`, if any (Python dicts have unique keys). -/
def pyGet (kvs : List (PyVal × PyVal)) (k : String) : Option PyVal :=
  (kvs.find? (fun e => keyEq e.1 (pystr k))).map (·.2)

/-- Python `for x in v`: lists iterate their elements, strings iterate their
characters as 1-character strings, dicts iterate their keys; every other
value raises `TypeError: ... is not iterable`. -/
def pyIter : PyVal → Except PyErr (List PyVal)
  | pylist xs => .ok xs
  | pystr s => .ok (s.toList.map fun c => pystr (String.mk [c]))
  | pydict kvs => .ok (kvs.map (·.1))
  | _ => .error .typeError

/-- Source `create_new_session(title)` (`app.py:77`): a fresh `ChatSession` with a
newly drawn uuid, both timestamps set to now, empty messages and context,
and no claude session id. Returns the session and the advanced draw counter. -/
def create_new_session (w : World) (k : Nat) (title : String) : PyVal × Nat :=
  (pysession (pystr (w.uuid k)) (pylist []) (pystr w.now) (pystr w.now)
    (pystr title) (pystr "") pynone, k + 1)

/-- The body of the `elif isinstance(msg, dict)` branch of
`dict_to_chat_session` (`app.py:116`): build a `Message` from a dict.
The `str(uuid.uuid4())` default of the `id` lookup is evaluated eagerly by
Python, so one uuid is drawn per dict entry whether or not `id` is present;
the `timestamp` default factory yields now, overridden by a present
`timestamp` key (kept if `str`, `.isoformat()` if `datetime`, now otherwise). -/
def dictToMessage (w : World) (k : Nat) (mkvs : List (PyVal × PyVal)) : PyVal × Nat :=
  let ts := match pyGet mkvs "timestamp" with
    | none => pystr w.now
    | some (pystr s) => pystr s
    | some (pydatetime iso) => pystr iso
    | some _ => pystr w.now
  (pymsg ((pyGet mkvs "id").getD (pystr (w.uuid k)))
    ((pyGet mkvs "role").getD (pystr "user"))
    ((pyGet mkvs "content").getD (pystr ""))
    ts
    ((pyGet mkvs "metadata").getD (pydict []))
    ((pyGet mkvs "is_streaming").getD (pybool false))
    ((pyGet mkvs "in_progress").getD (pybool false)), k + 1)

/-- The message-conversion loop of `dict_to_chat_session` (`app.py:113-134`):
`Message` instances are kept, dicts are converted, everything else is
silently skipped. -/
def convertMessages (w : World) : List PyVal → Nat → List PyVal × Nat
  | [], k => ([], k)
  | pymsg i r c t m s p :: xs, k =>
    let (rest, k') := convertMessages w xs k
    (pymsg i r c t m s p :: rest, k')
  | pydict mkvs :: xs, k =>
    let (msg, k1) := dictToMessage w k mkvs
    let (rest, k') := convertMessages w xs k1
    (msg :: rest, k')
  | _ :: xs, k => convertMessages w xs k

/-- Timestamp normalization for `created_at` / `last_activity`
(`app.py:137-151`): an absent key keeps the value of the fresh session (= now), a
`str` is kept, a `datetime` is replaced by its `.isoformat()`, anything else
by now. -/
def normTimestamp (w : World) (v : Option PyVal) (dflt : PyVal) : PyVal :=
  match v with
  | none => dflt
  | some (pystr s) => pystr s
  | some (pydatetime iso) => pystr iso
  | some _ => pystr w.now

/-- Source `dict_to_chat_session(session_dict)` (`app.py:95`): `ChatSession`
instances are returned as-is; otherwise a fresh session is created, and if
the input is a dict its recognized fields are copied over it (iterating a
non-iterable `messages` value raises `TypeError`, which propagates); a
non-dict non-session input yields the fresh session. -/
def dict_to_chat_session (w : World) (k : Nat) (v : PyVal) :
    Except PyErr (PyVal × Nat) :=
  match v with
  | pysession i m c l t ctx cs => .ok (pysession i m c l t ctx cs, k)
  | pydict d =>
    let (base, k1) := create_new_session w k "Nova Conversa"
    match pyIter ((pyGet d "messages").getD (pylist [])) with
    | .error e => .error e
    | .ok items =>
      let (msgs, k2) := convertMessages w items k1
      .ok (pysession ((pyGet d "id").getD base.sessId)
        (pylist msgs)
        (normTimestamp w (pyGet d "created_at") base.sessCreatedAt)
        (normTimestamp w (pyGet d "last_activity") base.sessLastActivity)
        ((pyGet d "title").getD (pystr "Nova Conversa"))
        ((pyGet d "context").getD (pystr ""))
        ((pyGet d "claude_session_id").getD pynone), k2)
  | _ => .ok (create_new_session w k "Nova Conversa")

/-- Source `ensure_chatsession(obj)` (`app.py:60`): `ChatSession` instances pass
through unchanged, dicts are converted by `dict_to_chat_session`, anything
else becomes a fresh session. -/
def ensure_chatsession (w : World) (k : Nat) (v : PyVal) :
    Except PyErr (PyVal × Nat) :=
  match v with
  | pysession i m c l t ctx cs => .ok (pysession i m c l t ctx cs, k)
  | pydict d => dict_to_chat_session w k (pydict d)
  | _ => .ok (create_new_session w k "Nova Conversa")

/-! ## The session store (`State`, `app.py:155-208`) -/

/-- Membership test `k in d` on a Python dict. -/
def storeMem (store : List (PyVal × PyVal)) (k : PyVal) : Bool :=
  store.any (fun e => keyEq e.1 k)

/-- Lookup `d[k]` on a Python dict. -/
def storeGet (store : List (PyVal × PyVal)) (k : PyVal) : Option PyVal :=
  (store.find? (fun e => keyEq e.1 k)).map (·.2)

/-- Assignment `d[k] = v` on a Python dict: replaces the value under an
existing key in place, otherwise appends (dicts preserve insertion order). -/
def storeSet (store : List (PyVal × PyVal)) (k : PyVal) (v : PyVal) :
    List (PyVal × PyVal) :=
  if storeMem store k then
    store.map (fun e => if keyEq e.1 k then (e.1, v) else e)
  else store ++ [(k, v)]

/-- Whether a value is hashable in Python: lists, dicts and the (eq-only)
dataclasses are unhashable, so using one as a dict key or in a membership
test raises `TypeError: unhashable type`. -/
def hashable : PyVal → Bool
  | pynone => true
  | pystr _ => true
  | pyint _ => true
  | pybool _ => true
  | pydatetime _ => true
  | _ => false

/-- Python `k in d` with the `TypeError` an unhashable `k` raises. -/
def storeMemE (store : List (PyVal × PyVal)) (k : PyVal) : Except PyErr Bool :=
  if hashable k then .ok (storeMem store k) else .error .typeError

/-- Python `d[k] = v` with the `TypeError` an unhashable `k` raises. -/
def storeSetE (store : List (PyVal × PyVal)) (k : PyVal) (v : PyVal) :
    Except PyErr (List (PyVal × PyVal)) :=
  if hashable k then .ok (storeSet store k v) else .error .typeError

/-- Source `normalize_sessions(sessions)` (`app.py:70`): rebuild the store with every
value passed through `ensure_chatsession`, keys and order unchanged. -/
def normalize_sessions (w : World) :
    List (PyVal × PyVal) → Nat → Except PyErr (List (PyVal × PyVal) × Nat)
  | [], k => .ok ([], k)
  | (key, v) :: rest, k => do
    let (s, k1) ← ensure_chatsession w k v
    let (tail, k2) ← normalize_sessions w rest k1
    .ok ((key, s) :: tail, k2)

/-- The `processing_steps` normalization loop of `State.validate_sessions`
(`app.py:187-198`). A dict step is passed to
`ProcessingStep(step=..., status=..., timestamp=...)`, but `ProcessingStep`
has fields `(type, message, data, timestamp)` with `type` and `message`
required, so that call raises
`TypeError: unexpected keyword argument` — modelled as `typeError`.
`ProcessingStep` instances are kept; anything else is dropped. -/
def normalizeSteps : List PyVal → Except PyErr (List PyVal)
  | [] => .ok []
  | pydict _ :: _ => .error .typeError
  | pystep a b c d :: xs => do
    let rest ← normalizeSteps xs
    .ok (pystep a b c d :: rest)
  | _ :: xs => normalizeSteps xs

/-- The fields of the Mesop `State` stateclass (`app.py:155-171`).
`current_session` and the store values are `Any` in the source and can hold
dicts as well as dataclass instances, hence `PyVal`. -/
structure AppState where
  current_session : PyVal
  sessions : List (PyVal × PyVal)
  input_text : String
  is_loading : Bool
  error_message : String
  show_sidebar : Bool
  uploaded_file_content : String
  uploaded_file_name : String
  use_claude_sdk : Bool
  processing_steps : List PyVal
  current_response : String
  stream_content : String

/-- Source `State.validate_sessions` (`app.py:173-208`): normalize the current
session, every stored session, and the processing steps; if the store is
then empty, synthesize a fresh session, insert it and make it current;
finally, if the id of the current session is not a key of the store, register the
current session under it (the membership test raises `TypeError` when that
id is unhashable). -/
def validate_sessions (w : World) (k : Nat) (st : AppState) :
    Except PyErr (AppState × Nat) := do
  let (cur, k1) ← ensure_chatsession w k st.current_session
  let (sess, k2) ← normalize_sessions w st.sessions k1
  let steps ← normalizeSteps st.processing_steps
  let (cur2, sess2, k3) :=
    if sess.isEmpty then
      let (init, k3) := create_new_session w k2 "Nova Conversa"
      (init, storeSet sess init.sessId init, k3)
    else (cur, sess, k2)
  let mem ← storeMemE sess2 cur2.sessId
  let sess3 :=
    if mem then sess2 else storeSet sess2 cur2.sessId cur2
  .ok ({ st with current_session := cur2, sessions := sess3,
                 processing_steps := steps }, k3)

/-! ## Resilience decorators (`src/backend/error_handlers.py`) -/

/-- Failures seen by a caller of a circuit-breaker-wrapped operation: either
the `ChatAppError` with code `CIRCUIT_BREAKER_OPEN` raised by the breaker
itself (`error_handlers.py:261-264`), or an exception `e` raised by the
wrapped operation and re-raised unchanged. -/
inductive BErr (E : Type) where
  | circuitOpen : BErr E
  | exc : E → BErr E
  deriving Repr, DecidableEq

/-- The mutable attributes the `circuit_breaker` decorator stores on the
wrapped function (`error_handlers.py:247-249`): `func._failures`,
`func._last_failure_time` (a `time.time()` reading, `None` until the first
failure) and `func._circuit_open`. -/
structure BreakerState where
  failures : Nat
  last_failure_time : Option ℚ
  circuit_open : Bool
  deriving Repr, DecidableEq

/-- The initial attribute values set at decoration time
(`error_handlers.py:247-249`). -/
def BreakerState.initial : BreakerState :=
  ⟨0, none, false⟩

/-- One call through the `circuit_breaker` wrapper
(`error_handlers.py:252-280`). `now` is the `time.time()` reading for this
call, `op` the outcome the wrapped operation would produce if invoked, and
`expected e` whether `e` is an instance of `expected_exception`. Returns the
caller-visible outcome, the new breaker state, and how many times the
wrapped operation was invoked (0 or 1).

If the circuit is open and `recovery_timeout` has not strictly elapsed since
the recorded last failure, the call raises `CIRCUIT_BREAKER_OPEN` without
invoking `op`; if it has strictly elapsed, the circuit is closed and the
failure counter reset before the attempt. A successful attempt resets the
failure counter; a failing attempt with an expected exception increments it,
records the failure time, opens the circuit once the counter reaches
`failure_threshold`, and re-raises; an unexpected exception propagates
without touching the counters. -/
def breakerCall {E α : Type} (failure_threshold : Nat) (recovery_timeout : ℚ)
    (expected : E → Bool) (st : BreakerState) (now : ℚ) (op : Except E α) :
    Except (BErr E) α × BreakerState × Nat :=
  let gate : Option BreakerState :=
    if st.circuit_open then
      match st.last_failure_time with
      | some t =>
        if now - t > recovery_timeout then
          some { st with circuit_open := false, failures := 0 }
        else none
      | none => none
    else some st
  match gate with
  | none => (.error .circuitOpen, st, 0)
  | some st1 =>
    match op with
    | .ok a => (.ok a, { st1 with failures := 0 }, 1)
    | .error e =>
      if expected e then
        let f := st1.failures + 1
        (.error (.exc e),
         { failures := f, last_failure_time := some now,
           circuit_open := if failure_threshold ≤ f then true else st1.circuit_open },
         1)
      else (.error (.exc e), st1, 1)

/-- The outcome of one call in a sequence of calls through the breaker:
what the caller saw and how many times the wrapped operation ran. -/
structure CallRecord (E α : Type) where
  result : Except (BErr E) α
  invoked : Nat

/-- A sequence of calls through the `circuit_breaker` wrapper, threading the
function attributes: each list entry is the `time.time()` reading at that
call and the outcome the operation would produce if invoked. -/
def breakerRun {E α : Type} (failure_threshold : Nat) (recovery_timeout : ℚ)
    (expected : E → Bool) :
    List (ℚ × Except E α) → BreakerState → List (CallRecord E α) × BreakerState
  | [], st => ([], st)
  | (now, op) :: rest, st =>
    let (r, st1, n) := breakerCall failure_threshold recovery_timeout expected st now op
    let (rs, st2) := breakerRun failure_threshold recovery_timeout expected rest st1
    (⟨r, n⟩ :: rs, st2)

/-- The `retry_on_failure` wrapper loop (`error_handlers.py:150-173`),
abstracting the `time.sleep` backoff (which does not affect the outcome).
`op i` is the outcome of the `i`-th invocation of the wrapped function
(0-based), `expected e` whether `e` matches the `exceptions` tuple, and
`remaining` the retries still allowed. Returns the caller-visible outcome
and the total number of invocations: a success returns immediately; an
expected failure is retried while retries remain and the last one is
re-raised unchanged; an unexpected failure propagates immediately. -/
def retryLoop {E α : Type} (expected : E → Bool) (op : Nat → Except E α) :
    Nat → Nat → Except E α × Nat
  | remaining, i =>
    match op i with
    | .ok a => (.ok a, i + 1)
    | .error e =>
      if expected e then
        match remaining with
        | 0 => (.error e, i + 1)
        | r + 1 => retryLoop expected op r (i + 1)
      else (.error e, i + 1)

/-- Source `retry_on_failure(max_retries, ...)` applied to an operation
(`error_handlers.py:133-176`): run the loop with `max_retries` retries
allowed after the first attempt, starting from invocation 0. -/
def retry_on_failure {E α : Type} (max_retries : Nat) (expected : E → Bool)
    (op : Nat → Except E α) : Except E α × Nat :=
  retryLoop expected op max_retries 0

/-- One pass through the sync `circuit_breaker` wrapper when the wrapped
`func` is the `async def call_claude_code_sdk`
(`app_improved.py:142-147`). Inside the wrapper, `func(*args, **kwargs)`
only *creates* a coroutine and cannot raise, so the `try` body always
succeeds and `func._failures` is reset to 0 — the `except` branch that
would count failures and consult `failure_threshold` (hence the underscore
on that parameter) is dead code. The only error the wrapper itself can
raise is its open-circuit gate rejection. The success value is the
un-awaited coroutine, modelled by the `Except E α` outcome the body will
produce once awaited. -/
def breakerCallAsync {E α : Type} (_failure_threshold : Nat)
    (recovery_timeout : ℚ) (st : BreakerState) (now : ℚ)
    (body : Except E α) : Except (BErr E) (Except E α) × BreakerState :=
  let gate : Option BreakerState :=
    if st.circuit_open then
      match st.last_failure_time with
      | some t =>
        if now - t > recovery_timeout then
          some { st with circuit_open := false, failures := 0 }
        else none
      | none => none
    else some st
  match gate with
  | none => (.error .circuitOpen, st)
  | some st1 => (.ok body, { st1 with failures := 0 })

/-- The sync `retry_on_failure` wrapper stacked above the breaker wrapper on
the `async def` (`app_improved.py:141-142`, decorators apply bottom-up).
An attempt can only fail with the gate rejection of the inner breaker
wrapper — creating the coroutine never raises — so the loop returns the
un-awaited coroutine on the first gate passage and retries (catch-all
`exceptions=(Exception,)`) only `CIRCUIT_BREAKER_OPEN` rejections.
`times a` is the `time.time()` reading at retry attempt `a`. -/
def retryCallAsync {E α : Type} (failure_threshold : Nat)
    (recovery_timeout : ℚ) (times : Nat → ℚ) (body : Except E α) :
    Nat → Nat → BreakerState → Except (BErr E) (Except E α) × BreakerState
  | remaining, attempt, st =>
    match breakerCallAsync failure_threshold recovery_timeout st
        (times attempt) body with
    | (.ok cor, st1) => (.ok cor, st1)
    | (.error e, st1) =>
      match remaining with
      | 0 => (.error e, st1)
      | rr + 1 =>
        retryCallAsync failure_threshold recovery_timeout times body rr
          (attempt + 1) st1

/-- One logical `await self.call_claude_code_sdk(...)` as the program
actually behaves (`app_improved.py:141-147` with its call sites): the
decorated call runs the two sync wrappers, which at most reject at the
breaker gate and otherwise hand back the un-awaited coroutine; the `await`
then executes the body exactly once, *outside* both wrappers, so an
exception raised by the body reaches the caller directly — unseen by the
retry loop and uncounted by the breaker. Returns the caller-visible
outcome, the final wrapper-attribute state, and the number of body
executions. -/
def call_claude_code_sdk_awaited {E α : Type} (max_retries : Nat)
    (failure_threshold : Nat) (recovery_timeout : ℚ) (times : Nat → ℚ)
    (body : Except E α) (st : BreakerState) :
    Except (BErr E) α × BreakerState × Nat :=
  match retryCallAsync failure_threshold recovery_timeout times body
      max_retries 0 st with
  | (.ok cor, st1) => (cor.mapError BErr.exc, st1, 1)
  | (.error e, st1) => (.error e, st1, 0)

/-! ## The streaming adapter and the send pipeline (`app.py:225-313`, `1176-1308`) -/

/-- An event yielded by the Claude Code SDK `query` stream
(`app.py:243-300`): either an object carrying named attributes (the
`hasattr` check for a `__dict__` attribute — `getattr`/`hasattr` look the
attribute name up among `attrs`) or a plain dict (the
`isinstance(message, dict)` branch). -/
inductive SdkEvent where
  | obj : List (PyVal × PyVal) → SdkEvent
  | dict : List (PyVal × PyVal) → SdkEvent

/-- Python `str(v)` as used in the f-strings and fallbacks of the adapter.
Primitive values render faithfully; the `repr`-style rendering of
containers and dataclass instances is abstracted to a fixed placeholder,
and `str(datetime)` to the stored isoformat — no settled claim depends on
those renderings. -/
def pyStr : PyVal → String
  | pynone => "None"
  | pystr s => s
  | pyint n => toString n
  | pybool b => if b then "True" else "False"
  | pydatetime iso => iso
  | pylist _ => "<list>"
  | pydict _ => "<dict>"
  | pymsg _ _ _ _ _ _ _ => "<Message>"
  | pysession _ _ _ _ _ _ _ => "<ChatSession>"
  | pystep _ _ _ _ => "<ProcessingStep>"

/-- The loop body of the mesop `call_claude_code_sdk` (`app.py:246-300`):
fold one event into the running `(response_text, metadata)` pair.
An object event is checked first for a `subtype` attribute equal to `success`, then for
`type == "result"` split on the truthiness of `is_error`; a dict event only
for `type == "result"`. The error branches set
`response_text = f"Erro: {...error...}"` and `metadata["is_error"] = True`;
events matching no branch leave the pair unchanged. -/
def processSdkMessage (rt : PyVal) (md : List (PyVal × PyVal)) :
    SdkEvent → PyVal × List (PyVal × PyVal)
  | .obj attrs =>
    if (pyGet attrs "subtype").isSome ∧
        eqStr ((pyGet attrs "subtype").getD (pystr "")) "success" then
      let usage := (pyGet attrs "usage").getD (pydict [])
      let toks : PyVal × PyVal := match usage with
        | pydict u => ((pyGet u "input_tokens").getD (pyint 0),
                       (pyGet u "output_tokens").getD (pyint 0))
        | _ => (pyint 0, pyint 0)
      ((pyGet attrs "result").getD (pystr ""),
       [(pystr "cost_usd", (pyGet attrs "total_cost_usd").getD (pyint 0)),
        (pystr "duration_ms", (pyGet attrs "duration_ms").getD (pyint 0)),
        (pystr "num_turns", (pyGet attrs "num_turns").getD (pyint 0)),
        (pystr "session_id", (pyGet attrs "session_id").getD pynone),
        (pystr "input_tokens", toks.1),
        (pystr "output_tokens", toks.2)])
    else if (pyGet attrs "type").isSome ∧
        eqStr ((pyGet attrs "type").getD pynone) "result" then
      if ¬truthy ((pyGet attrs "is_error").getD (pybool false)) then
        ((pyGet attrs "result").getD (pystr ""),
         [(pystr "cost_usd", (pyGet attrs "total_cost_usd").getD (pyint 0)),
          (pystr "duration_ms", (pyGet attrs "duration_ms").getD (pyint 0)),
          (pystr "num_turns", (pyGet attrs "num_turns").getD (pyint 0)),
          (pystr "session_id", (pyGet attrs "session_id").getD pynone),
          (pystr "input_tokens", (pyGet attrs "input_tokens").getD (pyint 0)),
          (pystr "output_tokens", (pyGet attrs "output_tokens").getD (pyint 0))])
      else
        (pystr ("Erro: " ++ pyStr ((pyGet attrs "error").getD (pystr "Erro desconhecido"))),
         storeSet md (pystr "is_error") (pybool true))
    else (rt, md)
  | .dict kvs =>
    if eqStr ((pyGet kvs "type").getD pynone) "result" then
      if ¬truthy ((pyGet kvs "is_error").getD (pybool false)) then
        ((pyGet kvs "result").getD (pystr ""),
         [(pystr "cost_usd", (pyGet kvs "total_cost_usd").getD (pyint 0)),
          (pystr "duration_ms", (pyGet kvs "duration_ms").getD (pyint 0)),
          (pystr "num_turns", (pyGet kvs "num_turns").getD (pyint 0)),
          (pystr "session_id", (pyGet kvs "session_id").getD pynone),
          (pystr "input_tokens", (pyGet kvs "input_tokens").getD (pyint 0)),
          (pystr "output_tokens", (pyGet kvs "output_tokens").getD (pyint 0))])
      else
        (pystr ("Erro: " ++ pyStr ((pyGet kvs "error").getD (pystr "Erro desconhecido"))),
         storeSet md (pystr "is_error") (pybool true))
    else (rt, md)

/-- Fold the whole event stream, starting from `("", {})` (`app.py:238-239`). -/
def processSdkMessages : List SdkEvent → PyVal × List (PyVal × PyVal)
  | events => events.foldl (fun s ev => processSdkMessage s.1 s.2 ev) (pystr "", [])

/-- Python `str(last_message)` in the fallback (`app.py:305-309`): abstracted
rendering of an event, not depended on by any settled claim. -/
def sdkEventStr : SdkEvent → String
  | _ => "<sdk-event>"

/-- The mesop `call_claude_code_sdk` with the `query` stream replaced by a
given event list (`app.py:225-313`): fold the events, and if the resulting
`response_text` is falsy fall back to the stringified last event, or to the
fixed "no response" placeholder when the stream was empty. The surrounding
`try/except` cannot fire on this pure fold, so the remediation-text branches
(`app.py:315-337`) are unreachable here. -/
def call_claude_code_sdk_events (events : List SdkEvent) :
    PyVal × List (PyVal × PyVal) :=
  let s := processSdkMessages events
  if ¬truthy s.1 then
    match events.getLast? with
    | some ev => (pystr (sdkEventStr ev), s.2)
    | none => (pystr "⚠️ Nenhuma resposta recebida do Claude Code SDK. Verifique a configuração da API.", s.2)
  else s

/-- Python `str.strip()` with no argument: remove leading and trailing
whitespace. -/
def pyStrip (s : String) : String :=
  String.mk
    (((s.data.dropWhile Char.isWhitespace).reverse.dropWhile
      Char.isWhitespace).reverse)

/-- Python `str(error)` for a caught exception, as interpolated into
`f"Erro: {str(error)}"` (`app.py:1299`): the concrete message text is
abstracted to the exception kind, which no settled claim depends on. -/
def pyErrStr : PyErr → String
  | .typeError => "<TypeError>"
  | .attributeError => "<AttributeError>"

/-- Python `list.append(x)`: only an actual list has the attribute (anything else
raises `AttributeError`). -/
def pyListAppend (v : PyVal) (x : PyVal) : Except PyErr PyVal :=
  match v with
  | pylist xs => .ok (pylist (xs ++ [x]))
  | _ => .error .attributeError

/-- Assignment `session.messages = m` on a `ChatSession` instance. -/
def setSessMessages : PyVal → PyVal → PyVal
  | pysession i _ c l t ctx cs, m => pysession i m c l t ctx cs
  | v, _ => v

/-- Assignment `session.claude_session_id = v` on a `ChatSession` instance. -/
def setSessClaudeId : PyVal → PyVal → PyVal
  | pysession i m c l t ctx _, v => pysession i m c l t ctx v
  | s, _ => s

/-- Assignment `session.last_activity = v` on a `ChatSession` instance. -/
def setSessLastActivity : PyVal → PyVal → PyVal
  | pysession i m c _ t ctx cs, v => pysession i m c v t ctx cs
  | s, _ => s

/-- Assignment `session.title = v` on a `ChatSession` instance. -/
def setSessTitle : PyVal → PyVal → PyVal
  | pysession i m c l _ ctx cs, v => pysession i m c l v ctx cs
  | s, _ => s

/-- The mutations `assistant_message.content = response_text`,
`assistant_message.metadata = metadata`, `assistant_message.in_progress =
False` (`app.py:1280-1282`). `assistant_message` is aliased as the last
element of the message list of the current session, so the mutation lands there. -/
def setAssistantFields (m : PyVal) (content meta : PyVal) : PyVal :=
  match m with
  | pymsg i r _ t _ s _ => pymsg i r content t meta s (pybool false)
  | v => v

/-- Apply `setAssistantFields` to the last message of the message
list (the aliased `assistant_message`). -/
def updateLastMsg (s : PyVal) (content meta : PyVal) : PyVal :=
  match s with
  | pysession i (pylist msgs) c l t ctx cs =>
    match msgs.getLast? with
    | some last =>
      pysession i (pylist (msgs.dropLast ++ [setAssistantFields last content meta])) c l t ctx cs
    | none => pysession i (pylist msgs) c l t ctx cs
  | v => v

/-- Source `handle_send_message` (`app.py:1176-1224`) followed by
`process_message_async` (`app.py:1226-1308`) on the `use_claude_sdk = True`
path, with the SDK `query` stream replaced by the given event list.

The steps, in source order: validate the state; return unchanged if the
stripped input is empty or a send is in flight; clear `error_message`;
build and append the user `Message`; replace a non-`ChatSession` current
session by a registered fresh one; append the in-progress assistant
`Message`; run the adapter fold; record a truthy `metadata["session_id"]`;
fill the aliased assistant message with the response text and metadata;
re-normalize; bump `last_activity`; auto-title a "Nova Conversa" session
from the prompt (truncated past 50 characters); write the session back into
the store; and in `finally` drop the loading flag and the processing steps
(which is why the `ProcessingStep` appends made along the way cancel out). -/
def handle_send_message_sdk (w : World) (k : Nat) (st : AppState)
    (events : List SdkEvent) : Except PyErr (AppState × Nat) := do
  let (st1, k1) ← validate_sessions w k st
  if pyStrip st1.input_text == "" || st1.is_loading then
    .ok (st1, k1)
  else do
    let st2 := { st1 with error_message := "" }
    let user_message := pymsg (pystr (w.uuid k1)) (pystr "user")
      (pystr st2.input_text) (pystr w.now) (pydict []) (pybool false) (pybool false)
    let k2 := k1 + 1
    let start : PyVal × List (PyVal × PyVal) × Nat :=
      if st2.current_session.isSession then (st2.current_session, st2.sessions, k2)
      else
        let (ns, k3) := create_new_session w k2 "Nova Conversa"
        (ns, storeSet st2.sessions ns.sessId ns, k3)
    let (cur0, sess0, k3) := start
    let msgs1 ← pyListAppend cur0.sessMessages user_message
    let cur1 := setSessMessages cur0 msgs1
    let prompt := st2.input_text
    let assistant := pymsg (pystr (w.uuid k3)) (pystr "assistant") (pystr "")
      (pystr w.now) (pydict []) (pybool false) (pybool true)
    let k4 := k3 + 1
    let msgs2 ← pyListAppend cur1.sessMessages assistant
    let cur2 := setSessMessages cur1 msgs2
    let (cur3, k5) ← ensure_chatsession w k4 cur2
    let r := call_claude_code_sdk_events events
    let (response_text, md) := r
    let cur4 :=
      if truthy ((pyGet md "session_id").getD pynone) ∧ truthy cur3 then
        setSessClaudeId cur3 ((pyGet md "session_id").getD pynone)
      else cur3
    let cur5 := updateLastMsg cur4 response_text (pydict md)
    let (cur6, k6) ← ensure_chatsession w k5 cur5
    let cur7 := setSessLastActivity cur6 (pystr w.now)
    let cur8 :=
      if eqStr cur7.sessTitle "Nova Conversa" ∧ 0 < prompt.length then
        setSessTitle cur7
          (pystr (if 50 < prompt.length then prompt.take 50 ++ "..." else prompt))
      else cur7
    match storeSetE sess0 cur8.sessId cur8 with
    | .ok sessFinal =>
      .ok ({ st2 with current_session := cur8, sessions := sessFinal,
                      input_text := "", is_loading := false,
                      processing_steps := [] }, k6)
    | .error e =>
      -- `except` branch of `process_message_async` (`app.py:1298-1303`):
      -- the write into the store raised (unhashable session id), so the
      -- error is recorded in `error_message`; the in-progress pop does not
      -- fire because `in_progress` was already cleared at `app.py:1282`.
      .ok ({ st2 with current_session := cur8,
                      input_text := "", is_loading := false,
                      error_message := "Erro: " ++ pyErrStr e,
                      processing_steps := [] }, k6)

/-! ## Shared helpers for the claim theorems -/

/-- A concrete world for witnesses and counterexamples: uuid stream
`uuid-n`, clock frozen at a fixed isoformat reading. -/
def w0 : World := ⟨fun n => "uuid-" ++ toString n, "2024-01-01T00:00:00"⟩

/-- Whatever `ensure_chatsession` returns successfully is a `ChatSession`
instance. -/
theorem ensure_chatsession_ok_isSession {w : World} {k : Nat} {x s : PyVal}
    {k' : Nat} (h : ensure_chatsession w k x = .ok (s, k')) :
    s.isSession = true := by
  cases x
  case pydict d =>
    simp only [ensure_chatsession, dict_to_chat_session] at h
    split at h
    · exact absurd h (by simp)
    · simp only [Except.ok.injEq, Prod.mk.injEq] at h
      rw [← h.1]
      rfl
  case pysession i m c l t ctx cs =>
    simp only [ensure_chatsession, Except.ok.injEq, Prod.mk.injEq] at h
    rw [← h.1]
    rfl
  all_goals
    simp only [ensure_chatsession, create_new_session, Except.ok.injEq,
      Prod.mk.injEq] at h
  all_goals rw [← h.1]; rfl

/-- C1: normalization is idempotent — whenever `ensure_chatsession` returns a
session, applying `ensure_chatsession` to that result (under any world and
draw counter) returns it with every field equal (indeed the same value, by
the `isinstance(obj, ChatSession)` pass-through). -/
theorem ensure_chatsession_idempotent (w w2 : World) (k k2 : Nat)
    (x s : PyVal) (k' : Nat) (h : ensure_chatsession w k x = .ok (s, k')) :
    ensure_chatsession w2 k2 s = .ok (s, k2) := by
  have hs := ensure_chatsession_ok_isSession h
  cases s <;> simp_all [PyVal.isSession, ensure_chatsession]

/-- Witness for C1: the empty dict normalizes to a fresh session, and
normalizing that result again returns it unchanged. -/
theorem ensure_chatsession_idempotent_witness :
    ensure_chatsession w0 7
      (pysession (pystr "uuid-0") (pylist []) (pystr "2024-01-01T00:00:00")
        (pystr "2024-01-01T00:00:00") (pystr "Nova Conversa") (pystr "") pynone) =
    .ok (pysession (pystr "uuid-0") (pylist []) (pystr "2024-01-01T00:00:00")
        (pystr "2024-01-01T00:00:00") (pystr "Nova Conversa") (pystr "") pynone, 7) :=
  ensure_chatsession_idempotent w0 w0 0 7 (pydict []) _ 1 rfl

/-- Counterexample to C2: a map whose `messages` field is `None` makes
`ensure_chatsession` raise `TypeError` (iterating `None` in
`for msg in messages_data`), which propagates to the caller instead of a
canonical session being returned. -/
theorem ensure_chatsession_raises_on_none_messages :
    ensure_chatsession w0 0 (pydict [(pystr "messages", pynone)]) =
      .error .typeError := rfl

/-- The values Python can iterate among the shapes `messages` can take
(the complement raises `TypeError`), applied to the `messages` field a dict
input would be iterated on. Non-dict inputs never reach the iteration. -/
def messagesIterable : PyVal → Bool
  | pydict d =>
    match (pyGet d "messages").getD (pylist []) with
    | pylist _ => true
    | pystr _ => true
    | pydict _ => true
    | _ => false
  | _ => true

/-- C2 amended: `ensure_chatsession` returns a canonical session without
raising for every non-dict input and for every dict whose `messages` value
(defaulting to `[]`) is iterable; for a dict whose `messages` value is not
iterable (e.g. `None` or a number) it raises `TypeError` instead of
returning. -/
theorem ensure_chatsession_totality (w : World) (k : Nat) (x : PyVal) :
    (messagesIterable x = true →
      ∃ s k', ensure_chatsession w k x = .ok (s, k')) ∧
    (messagesIterable x = false →
      ensure_chatsession w k x = .error .typeError) := by
  cases x
  case pydict d =>
    constructor <;> intro hm <;>
      simp only [messagesIterable] at hm <;>
      simp only [ensure_chatsession, dict_to_chat_session] <;>
      cases hv : (pyGet d "messages").getD (pylist []) <;>
        rw [hv] at hm <;> simp_all [pyIter]
  all_goals
    exact ⟨fun _ => ⟨_, _, rfl⟩, fun hf => by simp [messagesIterable] at hf⟩

/-- Witness for C2 amended: a dict with an iterable (list) `messages` value
normalizes successfully, and one with `messages = 5` raises `TypeError`. -/
theorem ensure_chatsession_totality_witness :
    (∃ s k', ensure_chatsession w0 0
      (pydict [(pystr "messages", pylist [])]) = .ok (s, k')) ∧
    ensure_chatsession w0 0 (pydict [(pystr "messages", pyint 5)]) =
      .error .typeError :=
  ⟨(ensure_chatsession_totality w0 0 (pydict [(pystr "messages", pylist [])])).1 rfl,
   (ensure_chatsession_totality w0 0 (pydict [(pystr "messages", pyint 5)])).2 rfl⟩

/-- A canonical `ChatSession` instance carrying a native `datetime` (not a
string) in `created_at`. The unenforced Python annotations allow this, e.g.
`ChatSession(created_at=datetime.now())`. -/
def sessionWithDatetimeTs : PyVal :=
  pysession (pystr "sid") (pylist []) (pydatetime "2024-01-01T00:00:00")
    (pystr "2024-01-01T00:00:00") (pystr "T") (pystr "") pynone

/-- Counterexample to C3: a canonical session whose `created_at` holds a
native `datetime` passes through `ensure_chatsession` completely unchanged —
no timestamp is re-validated, and the output carries a non-string
timestamp. -/
theorem ensure_chatsession_keeps_nonstring_timestamp :
    ensure_chatsession w0 0 sessionWithDatetimeTs = .ok (sessionWithDatetimeTs, 0) ∧
    sessionWithDatetimeTs.sessCreatedAt.isStr = false :=
  ⟨rfl, rfl⟩

/-- C3 amended: a canonical `ChatSession` input is returned by
`ensure_chatsession` with every field untouched — the
`isinstance(obj, ChatSession)` branch performs no timestamp re-validation
at all; timestamps are converted to ISO strings only on the dict-conversion
path (`normTimestamp`). -/
theorem ensure_chatsession_passthrough (w : World) (k : Nat)
    (i m c l t ctx cs : PyVal) :
    ensure_chatsession w k (pysession i m c l t ctx cs) =
      .ok (pysession i m c l t ctx cs, k) := rfl

/-- The entries of a `messages` list that the conversion loop can convert:
`Message` instances and dicts; everything else is silently dropped. -/
def convertibleMsg : PyVal → Bool
  | pymsg _ _ _ _ _ _ _ => true
  | pydict _ => true
  | _ => false

/-- Dropping the non-convertible entries up front changes nothing: the
conversion loop is insensitive to the dropped entries (they consume no
fresh draws either). -/
theorem convertMessages_filter (w : World) :
    ∀ (xs : List PyVal) (k : Nat),
      convertMessages w xs k = convertMessages w (xs.filter convertibleMsg) k := by
  intro xs
  induction xs with
  | nil => intro k; rfl
  | cons x xs ih =>
    intro k
    cases x <;> simp [convertMessages, convertibleMsg, List.filter, ih]

/-- The conversion loop yields exactly one message per convertible entry. -/
theorem convertMessages_length (w : World) :
    ∀ (xs : List PyVal) (k : Nat),
      (convertMessages w xs k).1.length = (xs.filter convertibleMsg).length := by
  intro xs
  induction xs with
  | nil => intro k; rfl
  | cons x xs ih =>
    intro k
    cases x <;> simp [convertMessages, convertibleMsg, List.filter, ih]

/-- C10: when the `messages` value of a map input is a list, the
normalized message sequence of the session is exactly the conversion of the subsequence of
convertible entries (Message instances and dicts) in their original order —
one message per convertible entry, every other entry silently dropped, and
no error reported. -/
theorem ensure_chatsession_drops_nonconvertible_messages
    (w : World) (k : Nat) (d : List (PyVal × PyVal)) (xs : List PyVal)
    (s : PyVal) (k' : Nat)
    (h1 : pyGet d "messages" = some (pylist xs))
    (h2 : ensure_chatsession w k (pydict d) = .ok (s, k')) :
    s.sessMessages = pylist (convertMessages w (xs.filter convertibleMsg) (k + 1)).1 ∧
    (convertMessages w (xs.filter convertibleMsg) (k + 1)).1.length =
      (xs.filter convertibleMsg).length := by
  simp only [ensure_chatsession, dict_to_chat_session, h1, Option.getD_some,
    pyIter, create_new_session, Except.ok.injEq, Prod.mk.injEq] at h2
  constructor
  · rw [← h2.1, ← convertMessages_filter]
    rfl
  · rw [← convertMessages_filter, convertMessages_length]

/-- A demonstration `messages` list mixing a string, a `Message` instance,
a number and a dict. -/
def msgsDemo : List PyVal :=
  [pystr "x", pymsg pynone (pystr "user") (pystr "hi") pynone pynone pynone pynone,
   pyint 3, pydict []]

/-- The session `ensure_chatsession` produces from
a dict whose `messages` key holds `msgsDemo`, under `w0`: the string and the number are gone,
the `Message` instance is kept and the dict converted, in order. -/
def sessionDemo : PyVal :=
  pysession (pystr "uuid-0")
    (pylist [pymsg pynone (pystr "user") (pystr "hi") pynone pynone pynone pynone,
      pymsg (pystr "uuid-1") (pystr "user") (pystr "")
        (pystr "2024-01-01T00:00:00") (pydict []) (pybool false) (pybool false)])
    (pystr "2024-01-01T00:00:00") (pystr "2024-01-01T00:00:00")
    (pystr "Nova Conversa") (pystr "") pynone

/-- Witness for C10 at the demonstration input. -/
theorem ensure_chatsession_drops_nonconvertible_messages_witness :
    sessionDemo.sessMessages =
      pylist (convertMessages w0 (msgsDemo.filter convertibleMsg) 1).1 ∧
    (convertMessages w0 (msgsDemo.filter convertibleMsg) 1).1.length =
      (msgsDemo.filter convertibleMsg).length :=
  ensure_chatsession_drops_nonconvertible_messages w0 0
    [(pystr "messages", pylist msgsDemo)] msgsDemo sessionDemo 2 rfl rfl

/-- Characterization of a successful `Except` bind. -/
theorem exceptBind_ok {α β : Type} {x : Except PyErr α} {f : α → Except PyErr β}
    {b : β} : (x >>= f) = .ok b ↔ ∃ a, x = .ok a ∧ f a = .ok b := by
  cases x <;> simp [Bind.bind, Except.bind]

/-- Hashable keys compare equal to themselves. -/
theorem keyEq_refl {k : PyVal} (hk : hashable k = true) : keyEq k k = true := by
  cases k <;> simp_all [hashable, keyEq]

/-- A key that passes the membership test resolves by lookup. -/
theorem storeGet_isSome_of_mem {store : List (PyVal × PyVal)} {k : PyVal}
    (h : storeMem store k = true) : (storeGet store k).isSome = true := by
  induction store with
  | nil => simp [storeMem] at h
  | cons e es ih =>
    by_cases he : keyEq e.1 k = true
    · simp [storeGet, List.find?, he]
    · have h' : storeMem es k = true := by
        simp [storeMem] at h ⊢
        rcases h with h | h
        · exact absurd h he
        · exact h
      simpa [storeGet, List.find?, he] using ih h'

/-- After `d[k] = v` with a hashable key, looking `k` up yields `v`
(replacement case). -/
theorem storeGet_replace {k v : PyVal} (_hkk : keyEq k k = true) :
    ∀ store : List (PyVal × PyVal), storeMem store k = true →
      storeGet (store.map (fun e => if keyEq e.1 k then (e.1, v) else e)) k =
        some v := by
  intro store
  induction store with
  | nil => intro h; simp [storeMem] at h
  | cons e es ih =>
    intro h
    by_cases he : keyEq e.1 k = true
    · simp [storeGet, List.find?, he]
    · have h' : storeMem es k = true := by
        simp [storeMem] at h ⊢
        rcases h with h | h
        · exact absurd h he
        · exact h
      simpa [storeGet, List.find?, he] using ih h'

/-- After `d[k] = v` with a hashable key, looking `k` up yields `v`
(append case). -/
theorem storeGet_append {k v : PyVal} (hkk : keyEq k k = true) :
    ∀ store : List (PyVal × PyVal), storeMem store k = false →
      storeGet (store ++ [(k, v)]) k = some v := by
  intro store
  induction store with
  | nil => intro _; simp [storeGet, List.find?, hkk]
  | cons e es ih =>
    intro h
    have he : keyEq e.1 k = false := by
      simp [storeMem] at h
      exact h.1
    have h' : storeMem es k = false := by
      simp [storeMem] at h
      simpa [storeMem] using h.2
    simpa [storeGet, List.find?, he] using ih h'

/-- After `d[k] = v` with a hashable key, looking `k` up yields `v`. -/
theorem storeGet_storeSet_self {k v : PyVal} (hk : hashable k = true)
    (store : List (PyVal × PyVal)) :
    storeGet (storeSet store k v) k = some v := by
  have hkk := keyEq_refl hk
  unfold storeSet
  split
  · exact storeGet_replace hkk store (by assumption)
  · exact storeGet_append hkk store (by simpa using (Bool.not_eq_true _).mp (by assumption))

/-- Assignment `d[k] = v` never empties a dict. -/
theorem storeSet_ne_nil (store : List (PyVal × PyVal)) (k v : PyVal) :
    storeSet store k v ≠ [] := by
  unfold storeSet
  split
  · rename_i hmem
    cases store with
    | nil => simp [storeMem] at hmem
    | cons e es => simp
  · simp

/-- C8 amended: whenever `State.validate_sessions` returns, the session
store is non-empty and the id of the current session is a key of the store; if
the store was empty, the synthesized session is both made current and
stored under its id, so there the lookup yields the current session itself.
(The entry an existing key maps to is *not* overwritten and need not equal
the current session.) -/
theorem validate_sessions_nonempty_registered (w : World) (k : Nat)
    (st st' : AppState) (k' : Nat)
    (h : validate_sessions w k st = .ok (st', k')) :
    st'.sessions ≠ [] ∧
    (storeGet st'.sessions st'.current_session.sessId).isSome = true ∧
    (st.sessions = [] →
      storeGet st'.sessions st'.current_session.sessId =
        some st'.current_session) := by
  unfold validate_sessions at h
  rw [exceptBind_ok] at h
  obtain ⟨⟨cur, k1⟩, h1, h⟩ := h
  rw [exceptBind_ok] at h
  obtain ⟨⟨sess, k2⟩, h2, h⟩ := h
  rw [exceptBind_ok] at h
  obtain ⟨steps, h3, h⟩ := h
  simp only [] at h
  by_cases hemp : sess.isEmpty
  · -- empty store: a fresh session is synthesized, registered and made current
    simp only [hemp, if_true] at h
    have hsess : sess = [] := List.isEmpty_iff.mp hemp
    subst hsess
    rw [exceptBind_ok] at h
    obtain ⟨mem, h4, h⟩ := h
    simp only [create_new_session, storeSet, storeMem, List.any_nil,
      Bool.false_eq_true, if_false, List.nil_append, storeMemE, hashable,
      PyVal.sessId, if_true, Except.ok.injEq] at h4
    have hmem : mem = true := by
      rw [← h4]
      simp [storeMem, keyEq]
    subst hmem
    simp only [create_new_session, PyVal.sessId, if_true, Except.ok.injEq,
      Prod.mk.injEq] at h
    obtain ⟨hst', _⟩ := h
    subst hst'
    refine ⟨by simp [storeSet, storeMem], ?_, ?_⟩
    · simp [storeGet, storeSet, storeMem, List.find?, keyEq, PyVal.sessId]
    · intro _
      simp [storeGet, storeSet, storeMem, List.find?, keyEq, PyVal.sessId]
  · -- non-empty store
    have hempf : sess.isEmpty = false := by simpa using hemp
    simp only [hempf, Bool.false_eq_true, if_false] at h
    rw [exceptBind_ok] at h
    obtain ⟨mem, h4, h⟩ := h
    simp only [Except.ok.injEq, Prod.mk.injEq] at h
    obtain ⟨hst', _⟩ := h
    subst hst'
    have hhash : hashable cur.sessId = true := by
      by_contra hc
      simp [storeMemE, hc] at h4
    have hmemv : mem = storeMem sess cur.sessId := by
      simp [storeMemE, hhash] at h4
      exact h4.symm
    have hne : st.sessions = [] → False := by
      intro hnil
      rw [hnil] at h2
      simp only [normalize_sessions, Except.ok.injEq, Prod.mk.injEq] at h2
      have hs : sess = [] := h2.1.symm
      simp [hs] at hempf
    refine ⟨?_, ?_, fun hnil => (hne hnil).elim⟩
    · by_cases hm : mem = true
      · simp only [hm, if_true]
        intro hnil
        simp [hnil] at hempf
      · simp only [Bool.not_eq_true] at hm
        simp only [hm, Bool.false_eq_true, if_false]
        exact storeSet_ne_nil sess cur.sessId cur
    · by_cases hm : mem = true
      · simp only [hm, if_true]
        exact storeGet_isSome_of_mem (hmemv.symm.trans hm)
      · simp only [Bool.not_eq_true] at hm
        simp only [hm, Bool.false_eq_true, if_false]
        rw [storeGet_storeSet_self hhash]
        rfl

/-- A stored session under key `"a"` with title `"X"`. -/
def sessX : PyVal :=
  pysession (pystr "a") (pylist []) (pystr "c") (pystr "l") (pystr "X")
    (pystr "") pynone

/-- A current session with the same id `"a"` but title `"Y"`. -/
def sessY : PyVal :=
  pysession (pystr "a") (pylist []) (pystr "c") (pystr "l") (pystr "Y")
    (pystr "") pynone

/-- A state whose store already holds a different session under the current
id of that session. -/
def stC8 : AppState :=
  { current_session := sessY, sessions := [(pystr "a", sessX)],
    input_text := "", is_loading := false, error_message := "",
    show_sidebar := true, uploaded_file_content := "",
    uploaded_file_name := "", use_claude_sdk := true,
    processing_steps := [], current_response := "", stream_content := "" }

/-- Counterexample to C8: `validate_sessions` succeeds, the current
id `"a"` of the current session is a key of the store, but the store maps it to the
pre-existing session `sessX`, not to the current session `sessY` — the
`if ... not in ...` guard never overwrites an occupied key, so looking up
the current id yields content that differs from the current session. -/
theorem validate_sessions_does_not_overwrite_current :
    validate_sessions w0 0 stC8 = .ok (stC8, 0) ∧
    storeGet stC8.sessions stC8.current_session.sessId = some sessX ∧
    sessX ≠ sessY := by
  refine ⟨rfl, rfl, ?_⟩
  intro h
  injection h with h1 h2 h3 h4 h5 h6 h7
  injection h5 with h5'
  exact absurd h5' (by decide)

/-- Witness for C8 amended at the mismatched-store state. -/
theorem validate_sessions_nonempty_registered_witness :
    stC8.sessions ≠ [] ∧
    (storeGet stC8.sessions stC8.current_session.sessId).isSome = true ∧
    (stC8.sessions = [] →
      storeGet stC8.sessions stC8.current_session.sessId =
        some stC8.current_session) :=
  validate_sessions_nonempty_registered w0 0 stC8 stC8 0 rfl

/-- C7: with `max_retries=2`, an operation that fails on every attempt with
a matching exception is invoked exactly 3 times (1 + 2 retries), and the
caller sees exactly the exception object raised by the last attempt,
re-raised unaltered. -/
theorem retry_on_failure_bound_and_reraise {E α : Type} (expected : E → Bool)
    (op : Nat → Except E α) (es : Nat → E)
    (hop : ∀ n, op n = .error (es n)) (hexp : ∀ n, expected (es n) = true) :
    retry_on_failure 2 expected op = ((.error (es 2) : Except E α), 3) := by
  simp [retry_on_failure, retryLoop, hop, hexp]

/-- Witness for C7: an always-failing string-erroring operation. -/
theorem retry_on_failure_bound_and_reraise_witness :
    retry_on_failure 2 (fun _ : String => true)
        (fun n => (.error (toString n) : Except String Unit)) =
      ((.error (toString 2) : Except String Unit), 3) :=
  retry_on_failure_bound_and_reraise (fun _ => true)
    (fun n => .error (toString n)) (fun n => toString n)
    (fun _ => rfl) (fun _ => rfl)

/-- C4: with `failure_threshold=3`, (a) three consecutive calls whose
operation raises a matching exception take the breaker from its initial
state to `OPEN` with the last failure time recorded, each call invoking the
operation once and re-raising; (b) any call attempted while `OPEN` before
`recovery_timeout` has strictly elapsed since the last failure raises the
distinct `CIRCUIT_BREAKER_OPEN` error without invoking the operation and
without changing the state; (c) the first call attempted after
`recovery_timeout` has strictly elapsed invokes the operation exactly
once. -/
theorem circuit_breaker_transitions (E α : Type) (recovery_timeout : ℚ)
    (expected : E → Bool) (t1 t2 t3 : ℚ) (e1 e2 e3 : E)
    (h1 : expected e1 = true) (h2 : expected e2 = true)
    (h3 : expected e3 = true) :
    (breakerRun (α := α) 3 recovery_timeout expected
        [(t1, .error e1), (t2, .error e2), (t3, .error e3)] .initial =
      ([⟨.error (.exc e1), 1⟩, ⟨.error (.exc e2), 1⟩, ⟨.error (.exc e3), 1⟩],
       ⟨3, some t3, true⟩)) ∧
    (∀ (st : BreakerState) (tl now : ℚ) (op : Except E α),
      st.circuit_open = true → st.last_failure_time = some tl →
      now - tl ≤ recovery_timeout →
      breakerCall 3 recovery_timeout expected st now op =
        (.error .circuitOpen, st, 0)) ∧
    (∀ (st : BreakerState) (tl now : ℚ) (op : Except E α),
      st.circuit_open = true → st.last_failure_time = some tl →
      now - tl > recovery_timeout →
      (breakerCall 3 recovery_timeout expected st now op).2.2 = 1) := by
  refine ⟨?_, ?_, ?_⟩
  · simp [breakerRun, breakerCall, BreakerState.initial, h1, h2, h3]
  · intro st tl now op hopen hlast hle
    simp [breakerCall, hopen, hlast, not_lt.mpr hle]
  · intro st tl now op hopen hlast hgt
    cases op with
    | ok a => simp [breakerCall, hopen, hlast, hgt]
    | error e =>
      by_cases he : expected e = true
      · simp [breakerCall, hopen, hlast, hgt, he]
      · simp only [Bool.not_eq_true] at he
        simp [breakerCall, hopen, hlast, hgt, he]

/-- Witness for C4: threshold 3, timeout 10, failing at times 0, 1, 2; a
call at time 5 is rejected without invocation, a call at time 20 invokes
once. -/
theorem circuit_breaker_transitions_witness :
    (breakerRun (α := Unit) 3 10 (fun _ : String => true)
        [((0 : ℚ), .error "a"), ((1 : ℚ), .error "b"), ((2 : ℚ), .error "c")]
        .initial =
      ([⟨.error (.exc "a"), 1⟩, ⟨.error (.exc "b"), 1⟩, ⟨.error (.exc "c"), 1⟩],
       ⟨3, some 2, true⟩)) ∧
    (breakerCall (α := Unit) 3 10 (fun _ : String => true) ⟨3, some 2, true⟩ 5
        (.ok ()) = (.error .circuitOpen, ⟨3, some 2, true⟩, 0)) ∧
    ((breakerCall (α := Unit) 3 10 (fun _ : String => true) ⟨3, some 2, true⟩ 20
        (.ok ())).2.2 = 1) :=
  ⟨(circuit_breaker_transitions String Unit 10 (fun _ => true) 0 1 2 "a" "b" "c"
      rfl rfl rfl).1,
   (circuit_breaker_transitions String Unit 10 (fun _ => true) 0 1 2 "a" "b" "c"
      rfl rfl rfl).2.1 ⟨3, some 2, true⟩ 2 5 (.ok ()) rfl rfl (by norm_num),
   (circuit_breaker_transitions String Unit 10 (fun _ => true) 0 1 2 "a" "b" "c"
      rfl rfl rfl).2.2 ⟨3, some 2, true⟩ 2 20 (.ok ()) rfl rfl (by norm_num)⟩

/-- Counterexample to C5: threshold 3, timeout 10, breaker `OPEN` with 3
recorded failures at time 0. The probe at time 11 is let through and fails,
but the breaker does *not* re-enter `OPEN`: the failure counter was reset to
0 on entry, so it restarts at 1 and the circuit stays closed — and the very
next call invokes the operation instead of being rejected. -/
theorem circuit_breaker_probe_failure_stays_closed :
    (breakerCall (α := Unit) 3 10 (fun _ : String => true) ⟨3, some 0, true⟩ 11
        (.error "boom") = (.error (.exc "boom"), ⟨1, some 11, false⟩, 1)) ∧
    ((⟨1, some 11, false⟩ : BreakerState).circuit_open = false) ∧
    ((breakerCall (α := Unit) 3 10 (fun _ : String => true) ⟨1, some 11, false⟩
        12 (.ok ())).2.2 = 1) := by
  refine ⟨?_, rfl, ?_⟩ <;> norm_num [breakerCall]

/-- C5 amended: when the breaker is `OPEN` and a call arrives after
`recovery_timeout` has strictly elapsed, the probe is let through with the
circuit closed and the failure counter reset; if the probe succeeds the
breaker stays `CLOSED` with zero failures, and if it fails with a matching
exception the counter restarts at 1, the failure time is updated, and the
breaker re-opens immediately only in the degenerate case
`failure_threshold ≤ 1` — otherwise it stays `CLOSED` until
`failure_threshold` further consecutive failures accumulate. -/
theorem circuit_breaker_halfopen_probe {E α : Type} (failure_threshold : Nat)
    (recovery_timeout : ℚ) (expected : E → Bool) (st : BreakerState)
    (tl now : ℚ) (hopen : st.circuit_open = true)
    (hlast : st.last_failure_time = some tl)
    (helapsed : now - tl > recovery_timeout) :
    (∀ a : α, breakerCall failure_threshold recovery_timeout expected st now
        (.ok a) = (.ok a, ⟨0, some tl, false⟩, 1)) ∧
    (∀ e : E, expected e = true →
      breakerCall (α := α) failure_threshold recovery_timeout expected st now
          (.error e) =
        (.error (.exc e),
         ⟨1, some now, if failure_threshold ≤ 1 then true else false⟩, 1)) := by
  constructor
  · intro a
    simp [breakerCall, hopen, hlast, helapsed]
  · intro e he
    simp [breakerCall, hopen, hlast, helapsed, he]

/-- Witness for C5 amended: probe success and probe failure from an open
breaker with threshold 3. -/
theorem circuit_breaker_halfopen_probe_witness :
    (breakerCall (α := Unit) 3 10 (fun _ : String => true) ⟨3, some 0, true⟩ 11
        (.ok ()) = (.ok (), ⟨0, some 0, false⟩, 1)) ∧
    (breakerCall (α := Unit) 3 10 (fun _ : String => true) ⟨3, some 0, true⟩ 11
        (.error "boom") =
      (.error (.exc "boom"), ⟨1, some 11, if 3 ≤ 1 then true else false⟩, 1)) :=
  ⟨(circuit_breaker_halfopen_probe 3 10 (fun _ => true) ⟨3, some 0, true⟩ 0 11
      rfl rfl (by norm_num)).1 (),
   (circuit_breaker_halfopen_probe 3 10 (fun _ => true) ⟨3, some 0, true⟩ 0 11
      rfl rfl (by norm_num)).2 "boom" rfl⟩

/-- C6: the resilience decoration on `call_claude_code_sdk` is inert.
The claim (and spec §4.3) describe retry as the inner policy and the
breaker as the outer one, a logical call-with-retries counting as one
breaker attempt whose burst of failures can trip the breaker. In the code
the stack is the other way around, and — decisively — both sync wrappers
wrap an `async def`: creating the coroutine never raises, so regardless of
the body outcome and the retry budget, one logical call from any closed
breaker state executes the body exactly once, hands the body outcome to
the caller unaltered (no retry consumed it), resets the failure counter to
0, and leaves the circuit closed. In particular from the decoration-time
initial state an always-failing body is executed once, its exception
reaches the caller, and the attributes return to the initial state — the
breaker can never open and no retry ever happens. -/
theorem call_claude_code_sdk_decorators_inert {E α : Type} :
    (∀ (max_retries failure_threshold : Nat) (recovery_timeout : ℚ)
        (times : Nat → ℚ) (body : Except E α) (f : Nat) (lt : Option ℚ),
      call_claude_code_sdk_awaited max_retries failure_threshold
          recovery_timeout times body ⟨f, lt, false⟩ =
        (body.mapError BErr.exc, ⟨0, lt, false⟩, 1)) ∧
    (∀ (times : Nat → ℚ) (e : E),
      call_claude_code_sdk_awaited (α := α) 3 5 60 times (.error e) .initial =
        (.error (.exc e), .initial, 1)) := by
  have ha : ∀ (max_retries failure_threshold : Nat) (recovery_timeout : ℚ)
      (times : Nat → ℚ) (body : Except E α) (f : Nat) (lt : Option ℚ),
      call_claude_code_sdk_awaited max_retries failure_threshold
          recovery_timeout times body ⟨f, lt, false⟩ =
        (body.mapError BErr.exc, ⟨0, lt, false⟩, 1) := by
    intro max_retries failure_threshold recovery_timeout times body f lt
    simp [call_claude_code_sdk_awaited, retryCallAsync, breakerCallAsync]
  exact ⟨ha, fun times e => ha 3 5 60 times (.error e) 0 none⟩

/-- The current session of the C9 scenario: plain string fields, empty
message list, title distinct from the auto-title sentinel. -/
def sessC9 : PyVal :=
  pysession (pystr "s9") (pylist []) (pystr "c") (pystr "l") (pystr "T9")
    (pystr "") pynone

/-- A clean state about to send the prompt `"hello"`. -/
def stC9 : AppState :=
  { current_session := sessC9, sessions := [(pystr "s9", sessC9)],
    input_text := "hello", is_loading := false, error_message := "",
    show_sidebar := true, uploaded_file_content := "",
    uploaded_file_name := "", use_claude_sdk := true,
    processing_steps := [], current_response := "", stream_content := "" }

/-- The C9 event stream: the single map event
`{type: "result", is_error: true, error: "boom"}`. -/
def eventsC9 : List SdkEvent :=
  [.dict [(pystr "type", pystr "result"), (pystr "is_error", pybool true),
    (pystr "error", pystr "boom")]]

/-- The session the send produces: the user message, then the assistant
message filled with the error-marked text `"Erro: boom"` and
`metadata["is_error"] = True`, with `last_activity` bumped. -/
def sessC9After : PyVal :=
  pysession (pystr "s9")
    (pylist [pymsg (pystr "uuid-0") (pystr "user") (pystr "hello")
        (pystr "2024-01-01T00:00:00") (pydict []) (pybool false) (pybool false),
      pymsg (pystr "uuid-1") (pystr "assistant") (pystr "Erro: boom")
        (pystr "2024-01-01T00:00:00")
        (pydict [(pystr "is_error", pybool true)]) (pybool false) (pybool false)])
    (pystr "c") (pystr "2024-01-01T00:00:00") (pystr "T9") (pystr "") pynone

/-- The state after the send: note `error_message` is the empty string. -/
def stC9After : AppState :=
  { current_session := sessC9After, sessions := [(pystr "s9", sessC9After)],
    input_text := "", is_loading := false, error_message := "",
    show_sidebar := true, uploaded_file_content := "",
    uploaded_file_name := "", use_claude_sdk := true,
    processing_steps := [], current_response := "", stream_content := "" }

/-- Counterexample to C9: on the error-event stream the send leaves the
session-level `error_message` equal to `""`, not `"boom"` — `error_message`
is only written on an exception in the pipeline, never from the
`is_error` result — while the error text surfaces only in the assistant
message content. -/
theorem send_error_event_error_field_not_set :
    handle_send_message_sdk w0 0 stC9 eventsC9 = .ok (stC9After, 2) ∧
    stC9After.error_message = "" ∧ ("" : String) ≠ "boom" := by
  refine ⟨rfl, rfl, by decide⟩

/-- C9 amended: on the event stream
`[{type: "result", is_error: true, error: "boom"}]` the send yields an
assistant message whose content is `"Erro: boom"` — it starts with the
error marker `"Erro: "` — and whose metadata records `is_error = True`;
the session-level error field is not set (it remains `""`). -/
theorem send_error_event_marks_assistant_content :
    handle_send_message_sdk w0 0 stC9 eventsC9 = .ok (stC9After, 2) ∧
    (match stC9After.current_session.sessMessages with
      | pylist ms => (ms.getLast?.map PyVal.msgContent) = some (pystr "Erro: boom")
      | _ => False) ∧
    "Erro: boom" = "Erro: " ++ "boom" ∧
    pyGet (match (stC9After.current_session.sessMessages) with
      | pylist ms => match ms.getLast? with
        | some (pymsg _ _ _ _ (pydict md) _ _) => md
        | _ => []
      | _ => []) "is_error" = some (pybool true) ∧
    stC9After.error_message = "" := by
  refine ⟨rfl, rfl, rfl, rfl, rfl⟩
